import Mathlib

/-!
Verification of the x402 facilitator HTTP transport layer (`src/handlers.rs`):
the status-code mapping and wire error bodies of `IntoResponse for
FacilitatorLocalError`, the `post_verify` / `post_settle` / `get_supported` /
`get_health` handlers, and the static endpoint-description routes.
-/

/-- Modelled from the spec: `ErrorReason` is a closed enumeration of payment
problem reasons (the `proto` crate that declares it is not under src). -/
inductive ErrorReason where
  | insufficientFunds
  | invalidSignature
  | invalidScheme
  | invalidNetwork
  | expired
  | nonceAlreadyUsed
  | recipientMismatch
  | amountMismatch
  | onchainSubmissionFailed
  | onchainConfirmationFailed
  | unsupportedSchemeNetwork
deriving DecidableEq, Repr

/-- Modelled from the spec: `PaymentProblem` is a normalized
`(reason : ErrorReason, details : string)` pair derived from any engine error
(declared in the `proto` crate, not under src). -/
structure PaymentProblem where
  reason : ErrorReason
  details : String
deriving DecidableEq, Repr

/-- The two-variant scheme error matched by `handlers.rs` (its declaration in
the `scheme` crate is not under src; its two variants `PaymentVerification`
and `OnchainFailure` are exactly the ones the `IntoResponse` impl matches on,
and per the spec each carries a payment problem exposed via
`as_payment_problem`). -/
inductive X402SchemeFacilitatorError where
  | PaymentVerification (problem : PaymentProblem)
  | OnchainFailure (problem : PaymentProblem)
deriving DecidableEq, Repr

/-- `AsPaymentProblem::as_payment_problem`: the normalized problem carried by a
scheme error. -/
def X402SchemeFacilitatorError.as_payment_problem :
    X402SchemeFacilitatorError → PaymentProblem
  | .PaymentVerification p => p
  | .OnchainFailure p => p

/-- Discriminator for the two scheme-error variants. -/
def X402SchemeFacilitatorError.isPaymentVerification :
    X402SchemeFacilitatorError → Bool
  | .PaymentVerification _ => true
  | .OnchainFailure _ => false

/-- `FacilitatorLocalError`: the facilitator engine's error, as matched by the
`IntoResponse` impl in `handlers.rs` (variants `Verification` and `Settlement`,
each wrapping a scheme error). -/
inductive FacilitatorLocalError where
  | Verification (e : X402SchemeFacilitatorError)
  | Settlement (e : X402SchemeFacilitatorError)
deriving DecidableEq, Repr

/-- The scheme error wrapped by either variant of `FacilitatorLocalError`. -/
def FacilitatorLocalError.schemeError :
    FacilitatorLocalError → X402SchemeFacilitatorError
  | .Verification e => e
  | .Settlement e => e

/-- The fragment of JSON the handlers emit. `reason` embeds an `ErrorReason`
value where the Rust code serializes one. -/
inductive JsonVal where
  | str (s : String)
  | bool (b : Bool)
  | reason (r : ErrorReason)
  | obj (fields : List (String × JsonVal))
  | arr (items : List JsonVal)
deriving Repr

/-- Field lookup in a list of JSON object fields (first match). -/
def getFieldAux : List (String × JsonVal) → String → Option JsonVal
  | [], _ => none
  | (k, v) :: rest, key => if k = key then some v else getFieldAux rest key

/-- Field lookup on a JSON value: `some` only on objects having the key. -/
def JsonVal.getField (j : JsonVal) (key : String) : Option JsonVal :=
  match j with
  | .obj fields => getFieldAux fields key
  | _ => none

/-- An HTTP response as the handlers build one: a status code and a JSON body
(the only body kind the claims concern). -/
structure HttpResponse where
  status : Nat
  body : JsonVal
deriving Repr

/-- `IntoResponse for FacilitatorLocalError` (`handlers.rs` lines 654-713):
builds a `VerificationErrorResponse` or `SettlementErrorResponse` body (serde
`camelCase` field names) from the error's payment problem, with empty `payer`
(and empty `network`/`transaction` for settlement), and picks 400 for
`PaymentVerification` and 500 for `OnchainFailure`. -/
def FacilitatorLocalError.into_response : FacilitatorLocalError → HttpResponse
  | .Verification schemeHandlerError =>
      let problem := schemeHandlerError.as_payment_problem
      let verificationErrorResponse := JsonVal.obj
        [("isValid", .bool false),
         ("invalidReason", .reason problem.reason),
         ("invalidReasonDetails", .str problem.details),
         ("payer", .str "")]
      let statusCode : Nat :=
        match schemeHandlerError with
        | .PaymentVerification _ => 400
        | .OnchainFailure _ => 500
      ⟨statusCode, verificationErrorResponse⟩
  | .Settlement schemeHandlerError =>
      let problem := schemeHandlerError.as_payment_problem
      let settlementErrorResponse := JsonVal.obj
        [("success", .bool false),
         ("network", .str ""),
         ("transaction", .str ""),
         ("errorReason", .reason problem.reason),
         ("errorReasonDetails", .str problem.details),
         ("payer", .str "")]
      let statusCode : Nat :=
        match schemeHandlerError with
        | .PaymentVerification _ => 400
        | .OnchainFailure _ => 500
      ⟨statusCode, settlementErrorResponse⟩

/-- Modelled from the spec: `VerifyResponse = \x7b isValid: bool,
invalidReason?, payer \x7d` (declared in the `proto` crate, not under src). -/
structure VerifyResponse where
  isValid : Bool
  invalidReason : Option ErrorReason
  payer : String
deriving Repr

/-- JSON serialization of a `VerifyResponse` (optional reason omitted when
absent, as serde does for a skipped `Option`). -/
def VerifyResponse.toJson (r : VerifyResponse) : JsonVal :=
  .obj ([("isValid", .bool r.isValid)] ++
    (match r.invalidReason with
     | some re => [("invalidReason", .reason re)]
     | none => []) ++
    [("payer", .str r.payer)])

/-- Modelled from the spec: `SettleResponse = \x7b success: bool, network,
transaction, errorReason?, payer \x7d` (declared in the `proto` crate, not
under src). -/
structure SettleResponse where
  success : Bool
  network : String
  transaction : String
  errorReason : Option ErrorReason
  payer : String
deriving Repr

/-- JSON serialization of a `SettleResponse`. -/
def SettleResponse.toJson (r : SettleResponse) : JsonVal :=
  .obj ([("success", .bool r.success),
         ("network", .str r.network),
         ("transaction", .str r.transaction)] ++
    (match r.errorReason with
     | some re => [("errorReason", .reason re)]
     | none => []) ++
    [("payer", .str r.payer)])

/-- Modelled from the spec: `SupportedEntry = (scheme, network)` (declared in
the `proto` crate, not under src). -/
structure SupportedEntry where
  scheme : String
  network : String
deriving DecidableEq, Repr

/-- JSON serialization of one `SupportedEntry`. -/
def SupportedEntry.toJson (e : SupportedEntry) : JsonVal :=
  .obj [("scheme", .str e.scheme), ("network", .str e.network)]

/-- The events a handler performs against the facilitator engine, recorded so
that call counts are part of the handler's meaning. -/
inductive FacilitatorCall where
  | verifyCall
  | settleCall
deriving DecidableEq, Repr

/-- What one handler invocation produces: the HTTP response, the `warn!` log
line if any, and the trace of facilitator calls it made. -/
structure HandlerOutcome where
  response : HttpResponse
  warnLog : Option String
  calls : List FacilitatorCall
deriving Repr

/-- The log payload `serde_json::to_string(&body).unwrap_or_else(|_|
"<can-not-serialize>".to_string())` used by both POST handlers. -/
def logLine {Req : Type} (serialize : Req → Except String String)
    (body : Req) : String :=
  match serialize body with
  | .ok s => s
  | .error _ => "<can-not-serialize>"

/-- `post_verify` (`handlers.rs` lines 604-624) after body extraction: calls
`facilitator.verify` once; `Ok` becomes a 200 with the serialized response,
`Err` logs a warning with the serialized body and returns the error's own
response. -/
def post_verify_handler {Req : Type}
    (verify : Req → Except FacilitatorLocalError VerifyResponse)
    (serialize : Req → Except String String)
    (body : Req) : HandlerOutcome :=
  match verify body with
  | .ok validResponse =>
      { response := ⟨200, validResponse.toJson⟩
        warnLog := none
        calls := [.verifyCall] }
  | .error error =>
      { response := error.into_response
        warnLog := some (logLine serialize body)
        calls := [.verifyCall] }

/-- `post_settle` (`handlers.rs` lines 632-652) after body extraction: calls
`facilitator.settle` once; `Ok` becomes a 200 with the serialized response,
`Err` logs a warning and returns the error's own response. -/
def post_settle_handler {Req : Type}
    (settle : Req → Except FacilitatorLocalError SettleResponse)
    (serialize : Req → Except String String)
    (body : Req) : HandlerOutcome :=
  match settle body with
  | .ok validResponse =>
      { response := ⟨200, validResponse.toJson⟩
        warnLog := none
        calls := [.settleCall] }
  | .error error =>
      { response := error.into_response
        warnLog := some (logLine serialize body)
        calls := [.settleCall] }

/-- Modelled from the spec: a malformed request body "fails fast, not a domain
decision — propagated as a hard error before the engine is invoked" (the axum
`Json` extractor rejection, external to src): a client-error response whose
body is the extractor's plain message, not a structured domain body. -/
def jsonRejectionResponse (message : String) : HttpResponse :=
  ⟨400, .str message⟩

/-- The `POST /verify` route: body extraction happens before the handler runs,
so a decode failure produces the extractor's rejection and never invokes the
engine. -/
def post_verify_route {Req : Type}
    (decoded : Except String Req)
    (verify : Req → Except FacilitatorLocalError VerifyResponse)
    (serialize : Req → Except String String) : HandlerOutcome :=
  match decoded with
  | .error message =>
      { response := jsonRejectionResponse message, warnLog := none, calls := [] }
  | .ok body => post_verify_handler verify serialize body

/-- The `POST /settle` route: body extraction happens before the handler runs,
so a decode failure produces the extractor's rejection and never invokes the
engine. -/
def post_settle_route {Req : Type}
    (decoded : Except String Req)
    (settle : Req → Except FacilitatorLocalError SettleResponse)
    (serialize : Req → Except String String) : HandlerOutcome :=
  match decoded with
  | .error message =>
      { response := jsonRejectionResponse message, warnLog := none, calls := [] }
  | .ok body => post_settle_handler settle serialize body

/-- `get_supported` (`handlers.rs` lines 577-587): `Ok` becomes a 200 whose
body is the JSON array of the returned entries; `Err` becomes the error's own
response. Generic over the facilitator's error type, as the Rust handler is. -/
def get_supported {E : Type} (errorResponse : E → HttpResponse)
    (result : Except E (List SupportedEntry)) : HttpResponse :=
  match result with
  | .ok supported => ⟨200, .arr (supported.map SupportedEntry.toJson)⟩
  | .error error => errorResponse error

/-- `get_health` (`handlers.rs` lines 589-596): delegates to `get_supported`
on the same facilitator state. -/
def get_health {E : Type} (errorResponse : E → HttpResponse)
    (result : Except E (List SupportedEntry)) : HttpResponse :=
  get_supported errorResponse result

/-- `get_verify_info` (`handlers.rs` lines 33-43): the fixed JSON description
of the `/verify` endpoint, served with the default 200 of `Json(...)`. -/
def get_verify_info : HttpResponse :=
  ⟨200, .obj
    [("endpoint", .str "/verify"),
     ("description", .str "POST to verify x402 payments"),
     ("body", .obj
       [("paymentPayload", .str "PaymentPayload"),
        ("paymentRequirements", .str "PaymentRequirements")])]⟩

/-- `get_settle_info` (`handlers.rs` lines 45-59): the fixed JSON description
of the `/settle` endpoint. -/
def get_settle_info : HttpResponse :=
  ⟨200, .obj
    [("endpoint", .str "/settle"),
     ("description", .str "POST to settle x402 payments"),
     ("body", .obj
       [("paymentPayload", .str "PaymentPayload"),
        ("paymentRequirements", .str "PaymentRequirements")])]⟩

/-- A response status the transport layer is allowed to produce. -/
def wellFormedStatus (r : HttpResponse) : Prop :=
  r.status = 200 ∨ r.status = 400 ∨ r.status = 500

theorem into_response_status_cases (e : FacilitatorLocalError) :
    e.into_response.status = 400 ∨ e.into_response.status = 500 := by
  rcases e with se | se <;> rcases se with p | p <;>
    simp [FacilitatorLocalError.into_response]

theorem supportedEntry_toJson_injective :
    Function.Injective SupportedEntry.toJson := by
  intro a b h
  cases a
  cases b
  simp only [SupportedEntry.toJson, JsonVal.obj.injEq, List.cons.injEq,
    Prod.mk.injEq, JsonVal.str.injEq, and_true, true_and] at h
  simp_all

/-- C1: for every `FacilitatorLocalError` turned into an HTTP response (verify
and settle error paths alike), the status is 400 exactly when the underlying
scheme error is `PaymentVerification` and 500 exactly when it is
`OnchainFailure`; the two classes are exhaustive and mutually exclusive. -/
theorem error_status_classification :
    ∀ e : FacilitatorLocalError,
      (e.into_response.status = 400 ↔
        e.schemeError.isPaymentVerification = true) ∧
      (e.into_response.status = 500 ↔
        e.schemeError.isPaymentVerification = false) := by
  intro e
  rcases e with se | se <;> rcases se with p | p <;>
    simp [FacilitatorLocalError.into_response, FacilitatorLocalError.schemeError,
      X402SchemeFacilitatorError.isPaymentVerification]

/-- C2: every domain failure of the verify operation (a `Verification`-variant
engine error, per the spec's two-variant engine error surface) is rendered by
the POST /verify route as the structured body
`\x7b isValid: false, invalidReason, invalidReasonDetails, payer \x7d`; only a
request whose body fails to decode short-circuits before the engine is
invoked. -/
theorem verify_error_structured_body {Req : Type}
    (decoded : Except String Req)
    (verify : Req → Except FacilitatorLocalError VerifyResponse)
    (serialize : Req → Except String String) :
    (∀ body se, decoded = Except.ok body →
        verify body = Except.error (FacilitatorLocalError.Verification se) →
        (post_verify_route decoded verify serialize).response.body =
          JsonVal.obj
            [("isValid", JsonVal.bool false),
             ("invalidReason", JsonVal.reason se.as_payment_problem.reason),
             ("invalidReasonDetails", JsonVal.str se.as_payment_problem.details),
             ("payer", JsonVal.str "")]) ∧
    (∀ message, decoded = Except.error message →
        (post_verify_route decoded verify serialize).calls = []) := by
  constructor
  · intro body se hdec hver
    subst hdec
    simp [post_verify_route, post_verify_handler, hver,
      FacilitatorLocalError.into_response]
  · intro message hdec
    subst hdec
    simp [post_verify_route]

theorem verify_error_structured_body_witness :
    (post_verify_route (Except.ok ())
        (fun _ => Except.error (FacilitatorLocalError.Verification
          (X402SchemeFacilitatorError.PaymentVerification
            ⟨ErrorReason.invalidSignature, "bad signature"⟩)))
        (fun _ => Except.ok "\x7b\x7d")).response.body =
      JsonVal.obj
        [("isValid", JsonVal.bool false),
         ("invalidReason", JsonVal.reason ErrorReason.invalidSignature),
         ("invalidReasonDetails", JsonVal.str "bad signature"),
         ("payer", JsonVal.str "")] :=
  (verify_error_structured_body (Except.ok ())
      (fun _ => Except.error (FacilitatorLocalError.Verification
        (X402SchemeFacilitatorError.PaymentVerification
          ⟨ErrorReason.invalidSignature, "bad signature"⟩)))
      (fun _ => Except.ok "\x7b\x7d")).1 ()
    (X402SchemeFacilitatorError.PaymentVerification
      ⟨ErrorReason.invalidSignature, "bad signature"⟩) rfl rfl

/-- C3: every domain failure of the settle operation (a `Settlement`-variant
engine error) is rendered by the POST /settle route as the structured body
`\x7b success: false, network, transaction, errorReason, errorReasonDetails,
payer \x7d` with `success = false`. -/
theorem settle_error_structured_body {Req : Type}
    (decoded : Except String Req)
    (settle : Req → Except FacilitatorLocalError SettleResponse)
    (serialize : Req → Except String String) :
    ∀ body se, decoded = Except.ok body →
      settle body = Except.error (FacilitatorLocalError.Settlement se) →
      (post_settle_route decoded settle serialize).response.body =
        JsonVal.obj
          [("success", JsonVal.bool false),
           ("network", JsonVal.str ""),
           ("transaction", JsonVal.str ""),
           ("errorReason", JsonVal.reason se.as_payment_problem.reason),
           ("errorReasonDetails", JsonVal.str se.as_payment_problem.details),
           ("payer", JsonVal.str "")] := by
  intro body se hdec hset
  subst hdec
  simp [post_settle_route, post_settle_handler, hset,
    FacilitatorLocalError.into_response]

theorem settle_error_structured_body_witness :
    (post_settle_route (Except.ok ())
        (fun _ => Except.error (FacilitatorLocalError.Settlement
          (X402SchemeFacilitatorError.OnchainFailure
            ⟨ErrorReason.onchainSubmissionFailed, "rpc unreachable"⟩)))
        (fun _ => Except.ok "\x7b\x7d")).response.body =
      JsonVal.obj
        [("success", JsonVal.bool false),
         ("network", JsonVal.str ""),
         ("transaction", JsonVal.str ""),
         ("errorReason", JsonVal.reason ErrorReason.onchainSubmissionFailed),
         ("errorReasonDetails", JsonVal.str "rpc unreachable"),
         ("payer", JsonVal.str "")] :=
  settle_error_structured_body (Except.ok ())
    (fun _ => Except.error (FacilitatorLocalError.Settlement
      (X402SchemeFacilitatorError.OnchainFailure
        ⟨ErrorReason.onchainSubmissionFailed, "rpc unreachable"⟩)))
    (fun _ => Except.ok "\x7b\x7d") ()
    (X402SchemeFacilitatorError.OnchainFailure
      ⟨ErrorReason.onchainSubmissionFailed, "rpc unreachable"⟩) rfl rfl

/-- C4: both error bodies carry the machine-readable reason code and the
free-text detail string taken from the error's payment problem, for the
verification and the settlement variant alike. -/
theorem failure_carries_reason_and_details :
    ∀ se : X402SchemeFacilitatorError,
      ((FacilitatorLocalError.Verification se).into_response.body.getField
          "invalidReason" = some (JsonVal.reason se.as_payment_problem.reason)) ∧
      ((FacilitatorLocalError.Verification se).into_response.body.getField
          "invalidReasonDetails" =
        some (JsonVal.str se.as_payment_problem.details)) ∧
      ((FacilitatorLocalError.Settlement se).into_response.body.getField
          "errorReason" = some (JsonVal.reason se.as_payment_problem.reason)) ∧
      ((FacilitatorLocalError.Settlement se).into_response.body.getField
          "errorReasonDetails" =
        some (JsonVal.str se.as_payment_problem.details)) := by
  intro se
  refine ⟨?_, ?_, ?_, ?_⟩ <;>
    simp [FacilitatorLocalError.into_response, JsonVal.getField, getFieldAux]

/-- C5: when `supported()` succeeds, GET /supported is a 200 whose body is
exactly the JSON serialization of the returned entry list — and that
serialization is injective, so the enumerated entries are carried verbatim;
when `supported()` fails, the error's own response is returned. -/
theorem supported_response_verbatim {E : Type} (errorResponse : E → HttpResponse) :
    (∀ xs, get_supported errorResponse (Except.ok xs) =
        ⟨200, JsonVal.arr (xs.map SupportedEntry.toJson)⟩) ∧
    (∀ xs ys : List SupportedEntry,
        xs.map SupportedEntry.toJson = ys.map SupportedEntry.toJson → xs = ys) ∧
    (∀ e, get_supported errorResponse (Except.error e) = errorResponse e) := by
  refine ⟨fun xs => rfl, ?_, fun e => rfl⟩
  intro xs ys h
  exact List.map_injective_iff.mpr supportedEntry_toJson_injective h

theorem supported_response_verbatim_witness :
    (get_supported (fun _ : Unit => ⟨500, JsonVal.str "error"⟩)
        (Except.ok [⟨"exact", "base-sepolia"⟩]) =
      ⟨200, JsonVal.arr [JsonVal.obj
        [("scheme", JsonVal.str "exact"),
         ("network", JsonVal.str "base-sepolia")]]⟩) ∧
    ([(⟨"exact", "base"⟩ : SupportedEntry)] = [⟨"exact", "base"⟩]) :=
  ⟨(supported_response_verbatim (fun _ : Unit => ⟨500, JsonVal.str "error"⟩)).1
      [⟨"exact", "base-sepolia"⟩],
   (supported_response_verbatim
      (fun _ : Unit => ⟨500, JsonVal.str "error"⟩)).2.1
      [⟨"exact", "base"⟩] [⟨"exact", "base"⟩] rfl⟩

/-- C6: the POST /settle handler makes exactly one `settle` call per request,
and when that call fails it returns the error's own response — the failure is
surfaced, never retried by the transport layer. -/
theorem settle_called_once_not_retried {Req : Type}
    (settle : Req → Except FacilitatorLocalError SettleResponse)
    (serialize : Req → Except String String) (body : Req) :
    ((post_settle_handler settle serialize body).calls =
      [FacilitatorCall.settleCall]) ∧
    (∀ e, settle body = Except.error e →
        (post_settle_handler settle serialize body).response =
          e.into_response) := by
  constructor
  · cases h : settle body <;> simp [post_settle_handler, h]
  · intro e he
    simp [post_settle_handler, he]

theorem settle_called_once_not_retried_witness :
    ((post_settle_handler
        (fun _ : Unit => Except.error (FacilitatorLocalError.Settlement
          (X402SchemeFacilitatorError.OnchainFailure
            ⟨ErrorReason.onchainConfirmationFailed, "timeout"⟩)))
        (fun _ => Except.ok "\x7b\x7d") ()).calls =
      [FacilitatorCall.settleCall]) ∧
    ((post_settle_handler
        (fun _ : Unit => Except.error (FacilitatorLocalError.Settlement
          (X402SchemeFacilitatorError.OnchainFailure
            ⟨ErrorReason.onchainConfirmationFailed, "timeout"⟩)))
        (fun _ => Except.ok "\x7b\x7d") ()).response =
      (FacilitatorLocalError.Settlement
        (X402SchemeFacilitatorError.OnchainFailure
          ⟨ErrorReason.onchainConfirmationFailed, "timeout"⟩)).into_response) :=
  ⟨(settle_called_once_not_retried
      (fun _ : Unit => Except.error (FacilitatorLocalError.Settlement
        (X402SchemeFacilitatorError.OnchainFailure
          ⟨ErrorReason.onchainConfirmationFailed, "timeout"⟩)))
      (fun _ => Except.ok "\x7b\x7d") ()).1,
   (settle_called_once_not_retried
      (fun _ : Unit => Except.error (FacilitatorLocalError.Settlement
        (X402SchemeFacilitatorError.OnchainFailure
          ⟨ErrorReason.onchainConfirmationFailed, "timeout"⟩)))
      (fun _ => Except.ok "\x7b\x7d") ()).2
     (FacilitatorLocalError.Settlement
       (X402SchemeFacilitatorError.OnchainFailure
         ⟨ErrorReason.onchainConfirmationFailed, "timeout"⟩)) rfl⟩

/-- C7: the POST /verify and POST /settle routes are total: every outcome of
decoding and of the facilitator call yields a response with a well-formed
status (200, 400 or 500), and a failure to serialize the body for logging is
absorbed into the placeholder string rather than raised. -/
theorem post_handlers_total {Req : Type}
    (decoded : Except String Req)
    (verify : Req → Except FacilitatorLocalError VerifyResponse)
    (settle : Req → Except FacilitatorLocalError SettleResponse)
    (serialize : Req → Except String String) :
    wellFormedStatus (post_verify_route decoded verify serialize).response ∧
    wellFormedStatus (post_settle_route decoded settle serialize).response ∧
    (∀ body msg, serialize body = Except.error msg →
        logLine serialize body = "<can-not-serialize>") := by
  refine ⟨?_, ?_, ?_⟩
  · rcases decoded with message | body
    · right
      left
      rfl
    · rcases h : verify body with e | r
      · rcases into_response_status_cases e with h4 | h5
        · right
          left
          simpa [post_verify_route, post_verify_handler, h] using h4
        · right
          right
          simpa [post_verify_route, post_verify_handler, h] using h5
      · left
        simp [post_verify_route, post_verify_handler, h, wellFormedStatus]
  · rcases decoded with message | body
    · right
      left
      rfl
    · rcases h : settle body with e | r
      · rcases into_response_status_cases e with h4 | h5
        · right
          left
          simpa [post_settle_route, post_settle_handler, h] using h4
        · right
          right
          simpa [post_settle_route, post_settle_handler, h] using h5
      · left
        simp [post_settle_route, post_settle_handler, h, wellFormedStatus]
  · intro body msg hser
    simp [logLine, hser]

theorem post_handlers_total_witness :
    wellFormedStatus (post_verify_route (Except.ok ())
      (fun _ : Unit => Except.ok ⟨true, none, "0xSigner"⟩)
      (fun _ => Except.error "loop")).response ∧
    logLine (fun _ : Unit => Except.error "loop") () = "<can-not-serialize>" :=
  ⟨(post_handlers_total (Except.ok ())
      (fun _ : Unit => Except.ok ⟨true, none, "0xSigner"⟩)
      (fun _ => Except.error (FacilitatorLocalError.Settlement
        (X402SchemeFacilitatorError.OnchainFailure
          ⟨ErrorReason.expired, "late"⟩)))
      (fun _ => Except.error "loop")).1,
   (post_handlers_total (Except.ok ())
      (fun _ : Unit => Except.ok ⟨true, none, "0xSigner"⟩)
      (fun _ => Except.error (FacilitatorLocalError.Settlement
        (X402SchemeFacilitatorError.OnchainFailure
          ⟨ErrorReason.expired, "late"⟩)))
      (fun _ => Except.error "loop")).2.2 () "loop" rfl⟩

/-- C8: for every facilitator state (any outcome of `supported()` and any
error renderer), GET /health produces exactly the response of GET /supported:
the health handler is the supported handler. -/
theorem health_equals_supported {E : Type} (errorResponse : E → HttpResponse)
    (result : Except E (List SupportedEntry)) :
    get_health errorResponse result = get_supported errorResponse result := rfl

/-- C9: every error response built from a `FacilitatorLocalError` has the
empty string as its `payer` field, and every settlement error response also
has the empty string as its `network` and `transaction` fields, whatever the
underlying scheme error was. -/
theorem error_response_blank_identity_fields :
    ∀ se : X402SchemeFacilitatorError,
      ((FacilitatorLocalError.Verification se).into_response.body.getField
          "payer" = some (JsonVal.str "")) ∧
      ((FacilitatorLocalError.Settlement se).into_response.body.getField
          "payer" = some (JsonVal.str "")) ∧
      ((FacilitatorLocalError.Settlement se).into_response.body.getField
          "network" = some (JsonVal.str "")) ∧
      ((FacilitatorLocalError.Settlement se).into_response.body.getField
          "transaction" = some (JsonVal.str "")) := by
  intro se
  refine ⟨?_, ?_, ?_, ?_⟩ <;>
    simp [FacilitatorLocalError.into_response, JsonVal.getField, getFieldAux]

/-- C10: the GET /verify and GET /settle description routes are constants:
each returns the one fixed 200 JSON object naming its endpoint, a description,
and the two body fields `paymentPayload` and `paymentRequirements`,
independent of facilitator state or request content (the handlers take no
input at all). -/
theorem info_routes_fixed :
    get_verify_info.status = 200 ∧
    get_verify_info.body.getField "endpoint" = some (JsonVal.str "/verify") ∧
    get_verify_info.body.getField "description" =
      some (JsonVal.str "POST to verify x402 payments") ∧
    get_verify_info.body.getField "body" = some (JsonVal.obj
      [("paymentPayload", JsonVal.str "PaymentPayload"),
       ("paymentRequirements", JsonVal.str "PaymentRequirements")]) ∧
    get_settle_info.status = 200 ∧
    get_settle_info.body.getField "endpoint" = some (JsonVal.str "/settle") ∧
    get_settle_info.body.getField "description" =
      some (JsonVal.str "POST to settle x402 payments") ∧
    get_settle_info.body.getField "body" = some (JsonVal.obj
      [("paymentPayload", JsonVal.str "PaymentPayload"),
       ("paymentRequirements", JsonVal.str "PaymentRequirements")]) := by
  refine ⟨rfl, ?_, ?_, ?_, rfl, ?_, ?_, ?_⟩ <;>
    simp [get_verify_info, get_settle_info, JsonVal.getField, getFieldAux]
